import Mathlib

/-!
Verification development for the FLAIR2 dataset module
(`torchgeo/datasets/flair2.py`).  The Python class is shallowly embedded:
pure computations become Lean functions, tensors/arrays become nested
lists over `ℚ` (floats are only moved around, divided by exact constants,
or compared, so exact rationals are a faithful carrier), and the
verification/acquisition routine becomes an explicit function over an
abstract filesystem state, returning `Except` for raised exceptions.
-/

namespace Flair2

/-! ### Class-level constants (`FLAIR2` class attributes) -/

/-- `FLAIR2.splits = ('train', 'test')`. -/
def splits : List String := ["train", "test"]

/-- `FLAIR2.centroids_file`. -/
def centroids_file : String := "flair-2_centroids_sp_to_patch"

/-- `FLAIR2.super_patch_size = 40`. -/
def super_patch_size : Int := 40

/-- `FLAIR2.rgb_bands`. -/
def rgb_bands : List String := ["B01", "B02", "B03"]

/-- `FLAIR2.all_bands`. -/
def all_bands : List String := ["B01", "B02", "B03", "B04", "B05"]

/-- `FLAIR2.classes`: the 13 modeled classes (classes beyond 13 are grouped
into the final "other" class). -/
def classes : List String :=
  ["building", "pervious surface", "impervious surface", "bare soil",
   "water", "coniferous", "deciduous", "brushwood", "vineyard",
   "herbaceous vegetation", "agricultural land", "plowed land", "other"]

/-! ### Band statistics (`FLAIR2.statistics`, `FLAIR2.per_band_statistics`) -/

/-- One entry of the per-band statistics table: `{min, max, mean, stdv}`. -/
structure BandStat where
  min : ℚ
  max : ℚ
  mean : ℚ
  stdv : ℚ
deriving DecidableEq

/-- The `"train"` entry of `FLAIR2.statistics`, in the dict's insertion
order B01, B02, B03, B04, B05. -/
def trainStatistics : List (String × BandStat) :=
  [("B01", ⟨0, 255, 113.77526983072, 1.4678962001526⟩),
   ("B02", ⟨0, 255, 118.08112962721, 1.2889349378677⟩),
   ("B03", ⟨0, 255, 109.27393364381, 1.2674219560871⟩),
   ("B04", ⟨0, 255, 102.36417944851, 1.1057592647291⟩),
   ("B05", ⟨0, 255, 16.697295721745, 0.82764953440507⟩)]

/-- `FLAIR2.statistics`: a dict keyed by split; only `"train"` is recorded. -/
def statistics : List (String × List (String × BandStat)) :=
  [("train", trainStatistics)]

/-- `FLAIR2.per_band_statistics(split, bands)`.  The Python `assert` on the
split key is modeled as `Except.error ()` (an `AssertionError`); the band
filter is `filter(lambda keyval: keyval[0] in bands, ...items())`, which
keeps the statistics dict's own (insertion) order. -/
def per_band_statistics (split : String) (bands : List String) :
    Except Unit (List ℚ × List ℚ × List ℚ × List ℚ) :=
  if (statistics.map Prod.fst).contains split then
    let ordered_bands_statistics :=
      ((statistics.lookup split).getD []).filter (fun kv => decide (kv.1 ∈ bands))
    .ok (ordered_bands_statistics.map (fun kv => kv.2.min),
         ordered_bands_statistics.map (fun kv => kv.2.max),
         ordered_bands_statistics.map (fun kv => kv.2.mean),
         ordered_bands_statistics.map (fun kv => kv.2.stdv))
  else .error ()

/-- `FLAIR2.get_num_bands(self) = len(self.bands)`. -/
def get_num_bands (bands : List String) : Nat := bands.length

/-! ### Super-patch cropping (`FLAIR2._crop_super_patch`) -/

/-- A crop window: two half-open integer index ranges
(first slice, second slice), as built by `_crop_super_patch`. -/
abbrev CropWindow := (Int × Int) × (Int × Int)

/-- A sentinel array of shape time × channel × height × width. -/
abbrev Sen := List (List (List (List ℚ)))

/-- The window computation inside `_crop_super_patch`: with `y, x = centroid`,
`indices = (slice(x-eigth_size, x+quarter_size), slice(y-eigth_size, y+quarter_size))`
where `eigth_size = super_patch_size // 8` and
`quarter_size = super_patch_size // 4`.  Note the first range is built from
`x` and the second from `y`. -/
def computeCropWindow (centroid : Int × Int) : CropWindow :=
  let y := centroid.1
  let x := centroid.2
  let eigth_size := super_patch_size / 8
  let quarter_size := super_patch_size / 4
  ((x - eigth_size, x + quarter_size), (y - eigth_size, y + quarter_size))

/-- `FLAIR2._crop_super_patch(data, centroid)`: the source computes the
slice indices and returns `(data, indices)` — the array itself is returned
unchanged; the slices are never applied to it. -/
def crop_super_patch (data : Sen) (centroid : Int × Int) : Sen × CropWindow :=
  (data, computeCropWindow centroid)

/-- Modelled from the spec: the contract `applyCrop(array, window)` of
SuperPatchCropper ("applies it to the coarse satellite array", restricting
the array to the window's row and column ranges).  No function in the
source applies the window; this definition follows the spec's words and is
used to compare the source's behavior against the claimed one. -/
def applyCropSpec (a : Sen) (w : CropWindow) : Sen :=
  a.map (fun t => t.map (fun chan =>
    ((chan.take w.1.2.toNat).drop w.1.1.toNat).map (fun row =>
      (row.take w.2.2.toNat).drop w.2.1.toNat)))

/-- Spatial (height, width) of a sentinel array's first time/channel plane. -/
def spatialDims (a : Sen) : Nat × Nat :=
  let hw := (a.getD 0 []).getD 0 []
  (hw.length, (hw.getD 0 []).length)

/-! ### Per-sample loaders (`_load_image`, `_load_sentinel`, `_load_target`) -/

/-- Apply `f` to the last element of a list (`tensor[-1] = ...`). -/
def mapLast (f : α → α) : List α → List α
  | [] => []
  | [a] => [f a]
  | a :: b :: rest => a :: mapLast f (b :: rest)

/-- `FLAIR2._load_image(path)`: `f.read()` yields the file's full
channel × height × width array (no band subsetting happens); if `"B05"` is
among the requested bands the last channel is divided by 5 in place. -/
def _load_image (array : List (List (List ℚ))) (bands : List String) :
    List (List (List ℚ)) :=
  if "B05" ∈ bands then
    mapLast (fun chan => chan.map (fun row => row.map (fun v => v / 5))) array
  else array

/-- `FLAIR2._load_sentinel(paths, aerial_path)`: loads the data and
snow-cloud-mask arrays, looks the centroid up by the aerial basename
(Python raises `KeyError` on a miss, modeled as `none`), passes both arrays
through `_crop_super_patch`, and returns both together with the slice
indices. -/
def _load_sentinel (centroids : List (String × (Int × Int)))
    (data snow_cloud_mask : Sen) (img_id : String) :
    Option (List Sen × CropWindow) :=
  match centroids.lookup img_id with
  | none => none
  | some c =>
    let cd := crop_super_patch data c
    let cm := crop_super_patch snow_cloud_mask c
    some ([cd.1, cm.1], cd.2)

/-- `FLAIR2._load_target(path)`: reads band 1 as an integer array and
remaps it via `torch.clamp(tensor - 1, 0, len(self.classes) - 1)`
element-wise. -/
def _load_target (array : List (List Int)) : List (List Int) :=
  array.map (fun row => row.map (fun v =>
    min (max (v - 1) 0) ((classes.length : Int) - 1)))

/-! ### Shared class configuration (`FLAIR2.dir_names`, `FLAIR2.globs`)

`dir_names` is a class attribute (a dict of dicts) shared by every
instance; toy mode rewrites its entries in place. -/

/-- The `FLAIR2.dir_names` table: split → modality → directory name. -/
structure ClassConfig where
  trainImages : String
  trainSentinels : String
  trainMasks : String
  testImages : String
  testSentinels : String
  testMasks : String
deriving DecidableEq

/-- The initial value of the class-level `dir_names` table. -/
def dir_names : ClassConfig :=
  ⟨"flair_aerial_train", "flair_sen_train", "flair_labels_train",
   "flair_2_aerial_test", "flair_2_sen_test", "flair_2_labels_test"⟩

/-- A value of the `FLAIR2.globs` dict: the `images` and `masks` entries
are plain glob strings, while the `sentinels` entry is itself a dict with
`data` and `snow_cloud_mask` sub-globs. -/
inductive GlobEntry : Type
  | str (s : String)
  | dict (data snow_cloud_mask : String)
deriving DecidableEq

/-- `FLAIR2.globs` keyed by modality. -/
def globs (key : String) : GlobEntry :=
  if key = "images" then .str "IMG_*.tif"
  else if key = "sentinels" then .dict "SEN2_*_data.npy" "SEN2_*_masks.npy"
  else .str "MSK_*.tif"

/-- Python's `str.replace(pat, repl)` helper: does `pat` match at the head? -/
def matchesAt : List Char → List Char → Bool
  | [], _ => true
  | _ :: _, [] => false
  | p :: ps, c :: cs => p = c && matchesAt ps cs

/-- Fuel-driven worker for `pyReplace` (the fuel is the string length;
one character is consumed per step since the patterns used are nonempty). -/
def replaceAux (pat repl : List Char) : Nat → List Char → List Char
  | 0, s => s
  | _ + 1, [] => []
  | fuel + 1, c :: cs =>
    if matchesAt pat (c :: cs) then
      repl ++ replaceAux pat repl fuel ((c :: cs).drop pat.length)
    else c :: replaceAux pat repl fuel cs

/-- Python's `s.replace(pat, repl)` (all occurrences, left to right). -/
def pyReplace (s pat repl : String) : String :=
  ⟨replaceAux pat.data repl.data s.data.length s.data⟩

/-- The in-place rewrite of `dir_names` performed by `_verify` in toy mode:
`{k: f.replace("flair", "flair_2_toy")}` for the train row and
`{k: f.replace("flair_2", "flair_2_toy")}` for the test row. -/
def rewriteToy (cfg : ClassConfig) : ClassConfig :=
  ⟨pyReplace cfg.trainImages "flair" "flair_2_toy",
   pyReplace cfg.trainSentinels "flair" "flair_2_toy",
   pyReplace cfg.trainMasks "flair" "flair_2_toy",
   pyReplace cfg.testImages "flair_2" "flair_2_toy",
   pyReplace cfg.testSentinels "flair_2" "flair_2_toy",
   pyReplace cfg.testMasks "flair_2" "flair_2_toy"⟩

/-! ### Abstract filesystem and the verification state machine -/

/-- Abstract filesystem state: which plain files and directories exist,
which recursive glob patterns have matches (an association list from
the full glob string to its sorted match list), and the parsed content of
the centroids JSON file (used by `_load_centroids` when the file exists). -/
structure FS where
  files : List String
  dirs : List String
  globMatches : List (String × List String)
  centroidContent : List (String × (Int × Int))
deriving DecidableEq

/-- `os.path.isfile`. -/
def FS.isFile (fs : FS) (p : String) : Bool := fs.files.contains p

/-- `os.path.isdir`. -/
def FS.isDir (fs : FS) (p : String) : Bool := fs.dirs.contains p

/-- `glob.glob(pat, recursive=True)`. -/
def FS.glob (fs : FS) (pat : String) : List String :=
  (fs.globMatches.lookup pat).getD []

/-- `os.path.join` on two string components. -/
def pathJoin (a b : String) : String := a ++ "/" ++ b

/-- Exceptions that `_verify` can raise: `DatasetNotFoundError`, or the
`TypeError` raised by `os.path.join` when handed a non-string component. -/
inductive VErr : Type
  | datasetNotFound
  | typeError
deriving DecidableEq

/-- Instance state relevant to verification: `self.root`, `self.split`,
`self.download`, `self.use_toy`. -/
structure Inst where
  root : String
  split : String
  download : Bool
  use_toy : Bool
deriving DecidableEq

/-- Result of a successful `_verify` run: the (possibly root-rebound)
instance, the (possibly rewritten) class-level `dir_names`, the resulting
filesystem, and how many downloads/extractions were performed. -/
structure VRes where
  inst : Inst
  cfg : ClassConfig
  fs : FS
  downloads : Nat
  extracts : Nat
deriving DecidableEq

/-- `FLAIR2._download(url)`: `download_url` places `root/url.zip` locally. -/
def _download (fs : FS) (root url : String) : FS :=
  { fs with files := pathJoin root (url ++ ".zip") :: fs.files }

/-- `FLAIR2._extract(file_path)`: `extract_archive` is an external
collaborator; its abstract effect is recorded as the extracted directory
appearing under the root. -/
def _extract (fs : FS) (root name : String) : FS :=
  { fs with dirs := pathJoin root name :: fs.dirs }

/-- `os.path.join(downloaded_path, "**", self.globs[key])`: joining a
string succeeds; joining the `sentinels` dict raises `TypeError`. -/
def ospJoinGlob (dpath : String) (e : GlobEntry) : Except VErr String :=
  match e with
  | .str s => .ok (pathJoin (pathJoin dpath "**") s)
  | .dict _ _ => .error .typeError

/-- `self.dir_names[self.split].items()` in dict insertion order. -/
def dirEntries (cfg : ClassConfig) (split : String) : List (String × String) :=
  if split = "train" then
    [("images", cfg.trainImages), ("sentinels", cfg.trainSentinels),
     ("masks", cfg.trainMasks)]
  else
    [("images", cfg.testImages), ("sentinels", cfg.testSentinels),
     ("masks", cfg.testMasks)]

/-- The `to_extract` loop of `_verify`: a directory is marked for
extraction when it is absent, or present with no glob matches; the glob
path is built with `os.path.join`, which raises on the sentinels entry. -/
def checkDirs (fs : FS) (root : String) :
    List (String × String) → Except VErr (List String)
  | [] => .ok []
  | (key, dname) :: rest =>
    let downloaded_path := pathJoin root dname
    if fs.isDir downloaded_path = false then
      (checkDirs fs root rest).map (fun tl => dname :: tl)
    else
      match ospJoinGlob downloaded_path (globs key) with
      | .error e => .error e
      | .ok files_glob =>
        (checkDirs fs root rest).map (fun tl =>
          if (fs.glob files_glob).isEmpty then dname :: tl else tl)

/-- The zip-extraction phase of `_verify`: each marked directory whose
archive already exists locally is extracted and removed from the download
list; returns the new filesystem, the number of extractions, and the
remaining `to_download` list (in order). -/
def extractPhase (root : String) : List String → FS → FS × Nat × List String
  | [], fs => (fs, 0, [])
  | c :: rest, fs =>
    if fs.isFile (pathJoin root (c ++ ".zip")) then
      let out := extractPhase root rest (_extract fs root c)
      (out.1, out.2.1 + 1, out.2.2)
    else
      let out := extractPhase root rest fs
      (out.1, out.2.1, c :: out.2.2)

/-- The download phase of `_verify`: each remaining candidate is
downloaded then extracted; returns the new filesystem and the count. -/
def downloadAll (root : String) : List String → FS → FS × Nat
  | [], fs => (fs, 0)
  | c :: rest, fs =>
    let out := downloadAll root rest (_extract (_download fs root c) root c)
    (out.1, out.2 + 1)

/-- The centroid-metadata block of `_verify`: ensure
`root/flair-2_centroids_sp_to_patch.json` exists, extracting and/or
downloading its archive as allowed; returns the filesystem and the
download/extraction counts. -/
def verifyCentroids (inst : Inst) (fs : FS) : Except VErr (FS × Nat × Nat) :=
  if fs.isFile (pathJoin inst.root (centroids_file ++ ".json")) then
    .ok (fs, 0, 0)
  else if fs.isFile (pathJoin inst.root (centroids_file ++ ".zip")) then
    .ok (_extract fs inst.root centroids_file, 0, 1)
  else if inst.download = false then .error .datasetNotFound
  else .ok (_extract (_download fs inst.root centroids_file)
              inst.root centroids_file, 1, 1)

/-- `FLAIR2._verify_toy()`: check for an extracted toy directory (rebind
root), else an un-extracted toy archive (extract, rebind root), else
download+extract when allowed (rebind root), else raise. -/
def _verify_toy (inst : Inst) (fs : FS) :
    Except VErr (Inst × FS × Nat × Nat) :=
  let toyDir := pathJoin inst.root "flair_2_toy_dataset"
  if fs.isDir toyDir then
    .ok ({ inst with root := toyDir }, fs, 0, 0)
  else if fs.isFile (pathJoin inst.root "flair_2_toy_dataset.zip") then
    .ok ({ inst with root := toyDir },
         _extract fs inst.root "flair_2_toy_dataset", 0, 1)
  else if inst.download = false then .error .datasetNotFound
  else
    .ok ({ inst with root := toyDir },
         _extract (_download fs inst.root "flair_2_toy_dataset")
           inst.root "flair_2_toy_dataset", 1, 1)

/-- `FLAIR2._verify()`: the full verification/recovery routine.  In toy
mode it delegates to `_verify_toy` and then rewrites the class-level
`dir_names` in place; otherwise it checks the centroid metadata, scans the
three split directories (the scan raises `TypeError` on the sentinels
entry whenever that directory exists, because `globs["sentinels"]` is a
dict), extracts local archives, and downloads the rest when allowed. -/
def _verify (inst : Inst) (cfg : ClassConfig) (fs : FS) : Except VErr VRes :=
  if inst.use_toy then
    match _verify_toy inst fs with
    | .error e => .error e
    | .ok (inst2, fs2, dl, ex) => .ok ⟨inst2, rewriteToy cfg, fs2, dl, ex⟩
  else
    match verifyCentroids inst fs with
    | .error e => .error e
    | .ok (fs1, dl1, ex1) =>
      match checkDirs fs1 inst.root (dirEntries cfg inst.split) with
      | .error e => .error e
      | .ok to_extract =>
        if to_extract.isEmpty then .ok ⟨inst, cfg, fs1, dl1, ex1⟩
        else
          let out := extractPhase inst.root to_extract fs1
          if out.2.2.isEmpty then
            .ok ⟨inst, cfg, out.1, dl1, ex1 + out.2.1⟩
          else if inst.download = false then .error .datasetNotFound
          else
            let dn := downloadAll inst.root out.2.2 out.1
            .ok ⟨inst, cfg, dn.1, dl1 + dn.2, ex1 + out.2.1 + dn.2⟩

/-! ### Construction (`FLAIR2.__init__`, `_load_centroids`, `_load_files`) -/

/-- Errors surfaced at construction time: the `assert` on the split
(an `AssertionError`, i.e. the invalid-configuration failure), the two
`_verify` exceptions, and `FileNotFoundError` from opening the centroids
JSON. -/
inductive InitErr : Type
  | invalidSplit
  | datasetNotFound
  | typeError
  | fileNotFound
deriving DecidableEq

/-- Map `_verify` exceptions into construction-time errors. -/
def liftVErr : VErr → InitErr
  | .datasetNotFound => .datasetNotFound
  | .typeError => .typeError

/-- `FLAIR2._load_centroids(filename)`: `open(root/filename.json)` raises
`FileNotFoundError` when absent, else the parsed JSON mapping from aerial
basename to the stored `(y, x)` pair. -/
def _load_centroids (fs : FS) (root : String) :
    Except InitErr (List (String × (Int × Int))) :=
  if fs.isFile (pathJoin root (centroids_file ++ ".json")) then
    .ok fs.centroidContent
  else .error .fileNotFound

/-- Insert a path into a lexicographically sorted list. -/
def insertSorted (s : String) : List String → List String
  | [] => [s]
  | t :: ts => if s < t then s :: t :: ts else t :: insertSorted s ts

/-- Python's `sorted` on a list of paths (lexicographic). -/
def sortedPaths (l : List String) : List String := l.foldr insertSorted []

/-- `FLAIR2._load_files()`: glob each modality under its split directory,
sort each list independently, and zip position-wise (`zip` truncates to
the shortest list). -/
def _load_files (fs : FS) (root : String) (cfg : ClassConfig)
    (split : String) : List (String × (String × String) × String) :=
  let dImages := if split = "train" then cfg.trainImages else cfg.testImages
  let dSen := if split = "train" then cfg.trainSentinels else cfg.testSentinels
  let dMasks := if split = "train" then cfg.trainMasks else cfg.testMasks
  let images := sortedPaths (fs.glob
    (pathJoin (pathJoin (pathJoin root dImages) "**") "IMG_*.tif"))
  let sentinels_data := sortedPaths (fs.glob
    (pathJoin (pathJoin (pathJoin root dSen) "**") "SEN2_*_data.npy"))
  let sentinels_mask := sortedPaths (fs.glob
    (pathJoin (pathJoin (pathJoin root dSen) "**") "SEN2_*_masks.npy"))
  let sentinels := sentinels_data.zip sentinels_mask
  let masks := sortedPaths (fs.glob
    (pathJoin (pathJoin (pathJoin root dMasks) "**") "MSK_*.tif"))
  images.zip (sentinels.zip masks)

/-- The state of a fully constructed dataset instance. -/
structure InitRes where
  res : VRes
  centroids : List (String × (Int × Int))
  files : List (String × (String × String) × String)
deriving DecidableEq

/-- `FLAIR2.__init__(root, split, bands, ..., download, checksum, use_toy)`:
asserts the split first (before any attribute assignment or filesystem
access), then runs `_verify`, then loads the centroid table and builds the
file index. -/
def initDataset (root split : String) (_bands : List String)
    (download use_toy : Bool) (cfg : ClassConfig) (fs : FS) :
    Except InitErr InitRes :=
  if splits.contains split = false then .error .invalidSplit
  else
    match _verify ⟨root, split, download, use_toy⟩ cfg fs with
    | .error e => .error (liftVErr e)
    | .ok r =>
      match _load_centroids r.fs r.inst.root with
      | .error e => .error e
      | .ok cents => .ok ⟨r, cents, _load_files r.fs r.inst.root r.cfg split⟩

/-! ### Concrete states used by the theorems below -/

/-- A centroid table with one aerial basename mapped to centroid `(10, 10)`. -/
def ctable : List (String × (Int × Int)) := [("IMG_000001.tif", (10, 10))]

/-- A sentinel array of shape 1 × 1 × 20 × 20 (super-area larger than the
15 × 15 crop). -/
def d20 : Sen := [[List.replicate 20 (List.replicate 20 (0 : ℚ))]]

/-- A five-channel aerial raster as returned by `f.read()`. -/
def file5 : List (List (List ℚ)) := List.replicate 5 [[1]]

/-- Filesystem with nothing present. -/
def fsEmpty : FS := ⟨[], [], [], []⟩

/-- Filesystem with only the centroid metadata file present. -/
def fsJsonOnly : FS := ⟨["data/flair-2_centroids_sp_to_patch.json"], [], [], []⟩

/-- Filesystem with everything the train split needs: centroid metadata,
all three split directories, and matching files in each. -/
def fsAllPresent : FS :=
  ⟨["data/flair-2_centroids_sp_to_patch.json"],
   ["data/flair_aerial_train", "data/flair_sen_train",
    "data/flair_labels_train"],
   [("data/flair_aerial_train/**/IMG_*.tif",
     ["data/flair_aerial_train/D1/IMG_000001.tif"]),
    ("data/flair_sen_train/**/SEN2_*_data.npy",
     ["data/flair_sen_train/D1/SEN2_1_data.npy"]),
    ("data/flair_labels_train/**/MSK_*.tif",
     ["data/flair_labels_train/D1/MSK_000001.tif"])],
   []⟩

/-- Filesystem where the masks directory (and its archive) is missing
while images and sentinels directories are present. -/
def fsMasksMissing : FS :=
  ⟨["data/flair-2_centroids_sp_to_patch.json"],
   ["data/flair_aerial_train", "data/flair_sen_train"],
   [("data/flair_aerial_train/**/IMG_*.tif",
     ["data/flair_aerial_train/D1/IMG_000001.tif"])],
   []⟩

/-- Filesystem with an already-extracted toy dataset directory. -/
def fsToy : FS := ⟨[], ["data/flair_2_toy_dataset"], [], []⟩

/-- The value of the class-level `dir_names` table after a toy-mode
`_verify` has rewritten it in place. -/
def toyConfig : ClassConfig :=
  ⟨"flair_2_toy_aerial_train", "flair_2_toy_sen_train",
   "flair_2_toy_labels_train", "flair_2_toy_aerial_test",
   "flair_2_toy_sen_test", "flair_2_toy_labels_test"⟩

/-- Filesystem where only the sentinels directory is missing, with its
archive available locally: a state on which non-toy `_verify` succeeds. -/
def fsW : FS :=
  ⟨["data/flair-2_centroids_sp_to_patch.json", "data/flair_sen_train.zip"],
   ["data/flair_aerial_train", "data/flair_labels_train"],
   [("data/flair_aerial_train/**/IMG_*.tif",
     ["data/flair_aerial_train/D1/IMG_000001.tif"]),
    ("data/flair_labels_train/**/MSK_*.tif",
     ["data/flair_labels_train/D1/MSK_000001.tif"])],
   []⟩

/-- A non-toy train-split instance with downloading disabled. -/
def instW : Inst := ⟨"data", "train", false, false⟩

/-- The `_verify` outcome on `fsW`: the sentinels archive got extracted,
nothing was downloaded, and the shared configuration is untouched. -/
def resW : VRes :=
  ⟨instW, dir_names, { fsW with dirs := "data/flair_sen_train" :: fsW.dirs },
   0, 1⟩

/-! ### Helper lemmas -/

/-- `mapLast` preserves length. -/
theorem mapLast_length (f : α → α) (l : List α) :
    (mapLast f l).length = l.length := by
  induction l with
  | nil => rfl
  | cons a t ih =>
    cases t with
    | nil => rfl
    | cons b r => simpa [mapLast] using ih

/-- Filtering a pair list on membership of the first component has the
same length as filtering the projected key list. -/
theorem length_filter_fst (bands : List String) (l : List (String × BandStat)) :
    (l.filter (fun kv => decide (kv.1 ∈ bands))).length =
      ((l.map Prod.fst).filter (fun b => decide (b ∈ bands))).length := by
  induction l with
  | nil => rfl
  | cons a t ih => by_cases h : a.1 ∈ bands <;> simp [List.filter_cons, h, ih]

/-- Counting the elements of one duplicate-free list that lie in another is
symmetric. -/
theorem filter_mem_length_comm (l₁ l₂ : List String) (h₁ : l₁.Nodup)
    (h₂ : l₂.Nodup) :
    (l₁.filter (fun a => decide (a ∈ l₂))).length =
      (l₂.filter (fun a => decide (a ∈ l₁))).length := by
  have k : ∀ (u v : List String), u.Nodup →
      (u.filter (fun a => decide (a ∈ v))).length =
        (u.toFinset ∩ v.toFinset).card := by
    intro u v hu
    rw [← List.toFinset_card_of_nodup (hu.filter _)]
    congr 1
    ext a
    simp
  rw [k l₁ l₂ h₁, k l₂ l₁ h₂, Finset.inter_comm]

/-! ### Claim theorems -/

/-- C4: `_crop_super_patch`, given centroid `(y, x)` and
`super_patch_size = 40` with `eigth_size = 40 // 8 = 5` and
`quarter_size = 40 // 4 = 10`, builds the window
`((x - 5, x + 10), (y - 5, y + 10))` — the first range from `x`, the
second from `y` — and each range spans `quarter + eighth = 15` indices for
every centroid. -/
theorem crop_window_axis_swap_and_size :
    ∀ (y x : Int) (data : Sen),
      computeCropWindow (y, x) =
        ((x - super_patch_size / 8, x + super_patch_size / 4),
         (y - super_patch_size / 8, y + super_patch_size / 4))
      ∧ (crop_super_patch data (y, x)).2 = computeCropWindow (y, x)
      ∧ super_patch_size / 8 = 5
      ∧ super_patch_size / 4 = 10
      ∧ (x + super_patch_size / 4) - (x - super_patch_size / 8) = 15
      ∧ (y + super_patch_size / 4) - (y - super_patch_size / 8) = 15 := by
  intro y x data
  have h8 : super_patch_size / 8 = 5 := by decide
  have h4 : super_patch_size / 4 = 10 := by decide
  refine ⟨rfl, rfl, h8, h4, ?_, ?_⟩ <;> rw [h4, h8] <;> ring

/-- C5: `_load_target` remaps every raw label `v` to
`clamp(v - 1, 0, len(classes) - 1)` with 13 classes, so every returned
value lies in `[0, 12]`; raw labels 0 and 1 map to 0 and raw label 14 maps
to 12. -/
theorem load_target_range_and_remap :
    (∀ (array : List (List Int)) (row : List Int) (v : Int),
        row ∈ _load_target array → v ∈ row → 0 ≤ v ∧ v ≤ 12)
    ∧ classes.length = 13
    ∧ _load_target [[0]] = [[0]]
    ∧ _load_target [[1]] = [[0]]
    ∧ _load_target [[14]] = [[12]] := by
  refine ⟨?_, by decide, by decide, by decide, by decide⟩
  intro array row v hrow hv
  simp only [_load_target, List.mem_map] at hrow
  obtain ⟨r0, -, rfl⟩ := hrow
  simp only [List.mem_map] at hv
  obtain ⟨u, -, rfl⟩ := hv
  have h13 : ((classes.length : Int) - 1) = 12 := by decide
  constructor
  · exact le_min (le_max_right _ _) (by rw [h13]; norm_num)
  · exact h13 ▸ min_le_right _ _

/-- C5 witness: the range bound applied to the concrete mask `[[0]]`. -/
theorem load_target_range_and_remap_witness : (0 : Int) ≤ 0 ∧ (0 : Int) ≤ 12 :=
  load_target_range_and_remap.1 [[0]] [0] 0 (by decide) (by decide)

/-- C1 counterexample: on a 1 × 1 × 20 × 20 sentinel array with centroid
`(10, 10)`, `_load_sentinel` returns the arrays unchanged with spatial
extent 20 × 20 — not the 15 × 15 extent that applying the computed crop
window would give. -/
theorem load_sentinel_not_cropped_cex :
    _load_sentinel ctable d20 d20 "IMG_000001.tif" =
      some ([d20, d20], ((5, 20), (5, 20)))
    ∧ spatialDims d20 = (20, 20)
    ∧ spatialDims (applyCropSpec d20 ((5, 20), (5, 20))) = (15, 15)
    ∧ spatialDims d20 ≠ (15, 15) := by
  refine ⟨rfl, rfl, rfl, by decide⟩

/-- C1 (amended): `_load_sentinel` computes the crop window from the
looked-up centroid but returns the satellite data and quality-mask arrays
unchanged (full super-area extent), paired with the window. -/
theorem load_sentinel_returns_full_arrays :
    ∀ (tbl : List (String × (Int × Int))) (data snow : Sen)
      (img_id : String) (c : Int × Int),
      tbl.lookup img_id = some c →
      _load_sentinel tbl data snow img_id =
        some ([data, snow], computeCropWindow c) := by
  intro tbl data snow img_id c h
  simp [_load_sentinel, h, crop_super_patch]

/-- C1 witness: the amended statement at the concrete table and array. -/
theorem load_sentinel_returns_full_arrays_witness :
    _load_sentinel ctable d20 d20 "IMG_000001.tif" =
      some ([d20, d20], computeCropWindow (10, 10)) :=
  load_sentinel_returns_full_arrays ctable d20 d20 "IMG_000001.tif" (10, 10)
    (by decide)

/-- C2: `_load_image` returns every channel that `f.read()` yields — the
channel count equals the file's channel count for any requested band list,
so with a five-channel raster and the two-band request `["B01", "B02"]`
the image has 5 channels while `get_num_bands` reports 2. -/
theorem load_image_channel_count_bug :
    (∀ (array : List (List (List ℚ))) (bands : List String),
        (_load_image array bands).length = array.length)
    ∧ (_load_image file5 ["B01", "B02"]).length = 5
    ∧ get_num_bands ["B01", "B02"] = 2
    ∧ (_load_image file5 ["B01", "B02"]).length ≠ get_num_bands ["B01", "B02"] := by
  have hlen : ∀ (array : List (List (List ℚ))) (bands : List String),
      (_load_image array bands).length = array.length := by
    intro array bands
    unfold _load_image
    split
    · exact mapLast_length _ _
    · rfl
  exact ⟨hlen, by decide, by decide, by decide⟩

/-- C3 counterexample: `per_band_statistics("train", ["B02", "B01"])`
returns the values in the table's B01-first order, not reordered to the
requested `[B02, B01]` order (B01 mean ≈113.775 comes first). -/
theorem per_band_statistics_order_cex :
    per_band_statistics "train" ["B02", "B01"] =
      .ok ([0, 0], [255, 255],
           [113.77526983072, 118.08112962721],
           [1.4678962001526, 1.2889349378677])
    ∧ ([113.77526983072, 118.08112962721] : List ℚ) ≠
        [118.08112962721, 113.77526983072] := by
  refine ⟨rfl, by norm_num⟩

/-- C3 (amended): `per_band_statistics` returns four parallel lists
filtered to the requested bands but ordered by the statistics table's own
fixed band order (each returned list is an in-order sublist of the full
table column), so `["B02", "B01"]` yields values in `[B01, B02]` order. -/
theorem per_band_statistics_table_order :
    (∀ (bands : List String) (mins maxs means stdvs : List ℚ),
        per_band_statistics "train" bands = .ok (mins, maxs, means, stdvs) →
        mins.Sublist (trainStatistics.map (fun kv => kv.2.min))
        ∧ maxs.Sublist (trainStatistics.map (fun kv => kv.2.max))
        ∧ means.Sublist (trainStatistics.map (fun kv => kv.2.mean))
        ∧ stdvs.Sublist (trainStatistics.map (fun kv => kv.2.stdv)))
    ∧ per_band_statistics "train" ["B02", "B01"] =
        .ok ([0, 0], [255, 255],
             [113.77526983072, 118.08112962721],
             [1.4678962001526, 1.2889349378677]) := by
  constructor
  · intro bands mins maxs means stdvs h
    have hunfold : per_band_statistics "train" bands =
        .ok ((trainStatistics.filter (fun kv => decide (kv.1 ∈ bands))).map
               (fun kv => kv.2.min),
             (trainStatistics.filter (fun kv => decide (kv.1 ∈ bands))).map
               (fun kv => kv.2.max),
             (trainStatistics.filter (fun kv => decide (kv.1 ∈ bands))).map
               (fun kv => kv.2.mean),
             (trainStatistics.filter (fun kv => decide (kv.1 ∈ bands))).map
               (fun kv => kv.2.stdv)) := by
      simp [per_band_statistics, statistics]
    rw [hunfold] at h
    simp only [Except.ok.injEq, Prod.mk.injEq] at h
    obtain ⟨h1, h2, h3, h4⟩ := h
    subst h1; subst h2; subst h3; subst h4
    exact ⟨(List.filter_sublist _).map _, (List.filter_sublist _).map _,
           (List.filter_sublist _).map _, (List.filter_sublist _).map _⟩
  · rfl

/-- C3 witness: the order property applied at the concrete request
`["B02", "B01"]`. -/
theorem per_band_statistics_table_order_witness :
    (([113.77526983072, 118.08112962721] : List ℚ)).Sublist
      (trainStatistics.map (fun kv => kv.2.mean)) :=
  (per_band_statistics_table_order.1 ["B02", "B01"] [0, 0] [255, 255]
    [113.77526983072, 118.08112962721] [1.4678962001526, 1.2889349378677]
    (by rfl)).2.2.1

/-- C7: with every required piece of data already present and valid
(`fsAllPresent`), `_verify` is not a no-op — it raises `TypeError`
because the directory scan joins `globs["sentinels"]` (a dict) into the
glob path; the claimed idempotent success path is unreachable. -/
theorem verify_all_present_typeerror :
    _verify ⟨"data", "train", false, false⟩ dir_names fsAllPresent =
      .error .typeError := rfl

/-- C9: with required data absent and downloading disabled, `_verify`
raises `DatasetNotFoundError` when the centroid metadata is missing and
when all three split directories are missing; but when only the masks
directory is missing (sentinels directory present), it raises `TypeError`
instead of the claimed `DatasetNotFoundError`. -/
theorem verify_missing_data_errors :
    _verify ⟨"data", "train", false, false⟩ dir_names fsEmpty =
      .error .datasetNotFound
    ∧ _verify ⟨"data", "train", false, false⟩ dir_names fsJsonOnly =
        .error .datasetNotFound
    ∧ _verify ⟨"data", "train", false, false⟩ dir_names fsMasksMissing =
        .error .typeError :=
  ⟨rfl, rfl, rfl⟩

/-- C6 counterexample: constructing a toy-mode instance succeeds on
`fsToy` and rewrites the shared class-level `dir_names` table, so the
configuration observed by every other instance is no longer the original
one. -/
theorem toy_mode_rewrites_shared_dir_names_cex :
    _verify ⟨"data", "train", false, true⟩ dir_names fsToy =
      .ok ⟨⟨"data/flair_2_toy_dataset", "train", false, true⟩,
           toyConfig, fsToy, 0, 0⟩
    ∧ toyConfig ≠ dir_names := by
  refine ⟨rfl, by decide⟩

/-- C6 (amended): each instance rebuilds its index and centroid table at
construction, and non-toy construction leaves the shared `dir_names`
unchanged; but the table is class-level mutable state: a toy-mode
construction rewrites it in place (train `flair` → `flair_2_toy`, test
`flair_2` → `flair_2_toy`), changing what every other instance observes. -/
theorem verify_cfg_preserved_unless_toy :
    (∀ (inst : Inst) (cfg : ClassConfig) (fs : FS) (r : VRes),
        inst.use_toy = false → _verify inst cfg fs = .ok r → r.cfg = cfg)
    ∧ _verify ⟨"data", "train", false, true⟩ dir_names fsToy =
        .ok ⟨⟨"data/flair_2_toy_dataset", "train", false, true⟩,
             toyConfig, fsToy, 0, 0⟩
    ∧ toyConfig ≠ dir_names := by
  refine ⟨?_, rfl, by decide⟩
  intro inst cfg fs r h hok
  unfold _verify at hok
  rw [h] at hok
  simp only [Bool.false_eq_true, if_false] at hok
  repeat' split at hok
  all_goals (cases hok <;> rfl)

/-- C6 witness: the preservation statement applied to a concrete non-toy
construction that succeeds (`fsW`). -/
theorem verify_cfg_preserved_unless_toy_witness : resW.cfg = dir_names :=
  verify_cfg_preserved_unless_toy.1 instW dir_names fsW resW rfl (by rfl)

/-- C8: `__init__` asserts the split before anything else, so an
unsupported split fails with the assertion (invalid-configuration) error
for every filesystem state, and the outcome does not depend on the
filesystem at all — no filesystem access, download, or extraction
happens. -/
theorem init_invalid_split_fails_fast :
    ∀ (root split : String) (bands : List String) (download use_toy : Bool)
      (cfg : ClassConfig) (fs fs2 : FS),
      splits.contains split = false →
      initDataset root split bands download use_toy cfg fs =
        .error .invalidSplit
      ∧ initDataset root split bands download use_toy cfg fs =
          initDataset root split bands download use_toy cfg fs2 := by
  intro root split bands download use_toy cfg fs fs2 h
  constructor <;> simp only [initDataset, h, eq_self_iff_true, if_true]

/-- C8 witness: the unsupported split `"val"` on two different concrete
filesystem states. -/
theorem init_invalid_split_fails_fast_witness :
    initDataset "data" "val" all_bands false false dir_names fsEmpty =
      .error .invalidSplit
    ∧ initDataset "data" "val" all_bands false false dir_names fsEmpty =
        initDataset "data" "val" all_bands false false dir_names fsAllPresent :=
  init_invalid_split_fails_fast "data" "val" all_bands false false dir_names
    fsEmpty fsAllPresent (by decide)

/-- C10: `per_band_statistics` errors exactly when the split has no
recorded statistics; a requested band absent from the table is silently
omitted, all four lists have the length of the table filtered to the
requested bands (for duplicate-free requests, the number of requested
bands appearing in the table), and that length can be strictly smaller
than the number of requested bands. -/
theorem per_band_statistics_assert_and_omission :
    (∀ (split : String) (bands : List String),
        per_band_statistics split bands = .error () ↔
          (statistics.map Prod.fst).contains split = false)
    ∧ (∀ (bands : List String) (mins maxs means stdvs : List ℚ),
        per_band_statistics "train" bands = .ok (mins, maxs, means, stdvs) →
        (mins.length =
            (trainStatistics.filter (fun kv => decide (kv.1 ∈ bands))).length
          ∧ maxs.length =
            (trainStatistics.filter (fun kv => decide (kv.1 ∈ bands))).length
          ∧ means.length =
            (trainStatistics.filter (fun kv => decide (kv.1 ∈ bands))).length
          ∧ stdvs.length =
            (trainStatistics.filter (fun kv => decide (kv.1 ∈ bands))).length)
        ∧ (bands.Nodup →
            mins.length = (bands.filter (fun b =>
              decide (b ∈ trainStatistics.map Prod.fst))).length))
    ∧ per_band_statistics "train" ["B01", "B06"] =
        .ok ([0], [255], [113.77526983072], [1.4678962001526])
    ∧ ([(0 : ℚ)]).length < (["B01", "B06"] : List String).length := by
  refine ⟨?_, ?_, rfl, by decide⟩
  · intro split bands
    by_cases h : (statistics.map Prod.fst).contains split <;>
      simp [per_band_statistics, h]
  · intro bands mins maxs means stdvs h
    have hunfold : per_band_statistics "train" bands =
        .ok ((trainStatistics.filter (fun kv => decide (kv.1 ∈ bands))).map
               (fun kv => kv.2.min),
             (trainStatistics.filter (fun kv => decide (kv.1 ∈ bands))).map
               (fun kv => kv.2.max),
             (trainStatistics.filter (fun kv => decide (kv.1 ∈ bands))).map
               (fun kv => kv.2.mean),
             (trainStatistics.filter (fun kv => decide (kv.1 ∈ bands))).map
               (fun kv => kv.2.stdv)) := by
      simp [per_band_statistics, statistics]
    rw [hunfold] at h
    simp only [Except.ok.injEq, Prod.mk.injEq] at h
    obtain ⟨h1, h2, h3, h4⟩ := h
    subst h1; subst h2; subst h3; subst h4
    refine ⟨⟨List.length_map _ _, List.length_map _ _,
             List.length_map _ _, List.length_map _ _⟩, ?_⟩
    intro hnd
    rw [List.length_map, length_filter_fst]
    exact filter_mem_length_comm _ bands (by decide) hnd

/-- C10 witness: the length facts at the concrete request
`["B01", "B06"]` (B06 is absent from the table and silently omitted). -/
theorem per_band_statistics_assert_and_omission_witness :
    ([(0 : ℚ)]).length =
      (trainStatistics.filter (fun kv =>
        decide (kv.1 ∈ (["B01", "B06"] : List String)))).length
    ∧ ([(0 : ℚ)]).length =
        ((["B01", "B06"] : List String).filter (fun b =>
          decide (b ∈ trainStatistics.map Prod.fst))).length := by
  have h := per_band_statistics_assert_and_omission.2.1 ["B01", "B06"]
    [0] [255] [113.77526983072] [1.4678962001526] (by rfl)
  exact ⟨h.1.1, h.2 (by decide)⟩

end Flair2
